import Mathlib

/-! Verification of `app.py` (Python Code Analysis API).

The development shallowly embeds the isolated dynamic-execution pipeline of
`app.py`: the process-wide state it mutates (module registry, working
directory, module search path, filesystem), the registry scrubber
`clean_module_cache`, the test harness `run_unit_tests`, and the upload
orchestrator `upload_code_file`.  Python exceptions are modelled with
`Except`; each fallible external effect (network call, module execution,
test discovery, file removal) is resolved by an explicit environment
record so that every control path of the source is a reachable branch of
the Lean definition.
-/

set_option autoImplicit false

namespace App

/-- A Python exception reduced to its message text. -/
structure PyErr where
  msg : String
deriving Repr, DecidableEq

/-- A FastAPI `HTTPException`: status code and detail text. -/
structure HTTPError where
  status : Nat
  detail : String
deriving Repr, DecidableEq

/-- The process-wide mutable state touched by `app.py`:
`sys.modules` (as the list of registered module names), the current working
directory, `sys.path`, the filesystem (existing files as a path-to-content
association list) and the set of existing directories. -/
structure Sys where
  modules : List String
  cwd : String
  searchPath : List String
  files : List (String × String)
  dirs : List String
deriving Repr, DecidableEq

/-- Python's `name.startswith(pat)`. -/
def strStartsWith (s pat : String) : Bool := pat.data.isPrefixOf s.data

/-- Python's `name.endswith(pat)`. -/
def strEndsWith (s pat : String) : Bool := pat.data.isSuffixOf s.data

/-- Python's slice `s[n:]`. -/
def strDrop (s : String) (n : Nat) : String := ⟨s.data.drop n⟩

/-- Python's slice `s[:-n]`. -/
def strDropRight (s : String) (n : Nat) : String := ⟨s.data.take (s.data.length - n)⟩

/-- Python's `s.strip()`: remove whitespace from both ends. -/
def strTrim (s : String) : String :=
  ⟨((s.data.dropWhile Char.isWhitespace).reverse.dropWhile Char.isWhitespace).reverse⟩

/-- One fuel-bounded pass of Python's `s.replace(pat, rep)` over the
character list: replace non-overlapping occurrences left to right.  The
fuel only needs to be at least the list length. -/
def replaceFuel (pat rep : List Char) : Nat → List Char → List Char
  | _, [] => []
  | 0, s => s
  | fuel + 1, c :: t =>
    if pat.isPrefixOf (c :: t) then rep ++ replaceFuel pat rep fuel ((c :: t).drop pat.length)
    else c :: replaceFuel pat rep fuel t

/-- Python's `s.replace(pat, rep)` for a non-empty `pat` (every call site
in `app.py` passes a non-empty pattern; an empty pattern is returned
unchanged here). -/
def strReplace (s pat rep : String) : String :=
  if pat.data.isEmpty then s else ⟨replaceFuel pat.data rep.data s.data.length s.data⟩

/-- Python's `pat in name` on strings: substring containment. -/
def strContains (name pat : String) : Bool :=
  decide (pat.data <:+: name.data)

/-- Model of `clean_module_cache` (app.py lines 60-69): collect every registered
module whose name contains one of the patterns as a substring, then delete
each collected entry from `sys.modules`.  The net effect on the registry is
to drop exactly the matching names. -/
def clean_module_cache (module_patterns : List String) (modules : List String) : List String :=
  modules.filter (fun name => !(module_patterns.any (fun pat => strContains name pat)))

/-- Model of `clean_code` (app.py lines 50-57): strip Markdown fences and outer
whitespace from generated code. -/
def clean_code (content : String) : String :=
  let content := strTrim content
  let content := if strStartsWith content "```python" then strDrop content 10 else content
  let content := if strEndsWith content "```" then strDropRight content 3 else content
  strTrim content

/-- Write a file: `open(path, "w")` followed by `write(content)`. -/
def setFile (path content : String) (files : List (String × String)) : List (String × String) :=
  (path, content) :: files.filter (fun f => f.1 != path)

/-- Model of `os.remove(path)` on the association-list filesystem. -/
def removeFile (path : String) (files : List (String × String)) : List (String × String) :=
  files.filter (fun f => f.1 != path)

/-- Read a file's content; `none` when the file does not exist
(Python raises `FileNotFoundError`). -/
def getFile (path : String) (files : List (String × String)) : Option String :=
  files.lookup path

/-- Model of `os.chdir(d)`: raises when the directory does not exist. -/
def chdir (d : String) (st : Sys) : Except PyErr Unit × Sys :=
  if st.dirs.contains d then (.ok (), { st with cwd := d })
  else (.error ⟨"No such file or directory: " ++ d⟩, st)

/-- Model of `shutil.rmtree(d, ignore_errors=True)`: recursively delete directory `d`
and everything below it.  `fails = true` models a deletion error, which is
suppressed (the state is simply left unchanged; nothing is raised). -/
def rmtree (fails : Bool) (d : String) (st : Sys) : Sys :=
  if fails then st
  else { st with dirs := st.dirs.filter (fun x => x != d),
                 files := st.files.filter (fun f => !(strStartsWith f.1 (d ++ "/"))) }

/-- Model of `sys.modules[name] = module`: dictionary insertion. -/
def insertModule (name : String) (mods : List String) : List String :=
  if mods.contains name then mods else mods ++ [name]

/-- Model of `unittest.TestResult.wasSuccessful` (CPython `Lib/unittest/result.py`):
true iff there are zero failures, zero errors and zero unexpected
successes. -/
def wasSuccessful (errors failures unexpectedSuccesses : Nat) : Bool :=
  (failures == 0 && errors == 0) && unexpectedSuccesses == 0

/-- Environment resolving the external effects of one `run_unit_tests`
invocation: the random token drawn at line 185, the outcomes of module
loading, test discovery and test execution, and whether the two
best-effort `os.remove` calls in the outer `finally` fail. -/
structure RunEnv where
  /-- Model of `str(uuid.uuid4())[:8]` (line 185). -/
  uid : String
  /-- Whether `importlib.util.spec_from_file_location` returned `None` (line 225). -/
  specNone : Bool
  /-- exception text when `spec.loader.exec_module` raises (line 229). -/
  execErr : Option String
  /-- registry entries inserted by the unit's own top-level imports. -/
  execAdds : List String
  /-- exception text when `loader.discover` raises (line 238). -/
  discoverErr : Option String
  /-- registry entries inserted while discovery imports the test module. -/
  discoverAdds : List String
  /-- Value of `suite.countTestCases()` (line 240). -/
  testCount : Nat
  /-- exception text when `runner.run` itself raises (line 246). -/
  runRaise : Option String
  /-- the captured `output.getvalue()` report text (line 247). -/
  runOutput : String
  /-- Value of `len(result.errors)`. -/
  runErrors : Nat
  /-- Value of `len(result.failures)`. -/
  runFailures : Nat
  /-- Value of `len(result.unexpectedSuccesses)`. -/
  runUnexpectedSuccesses : Nat
  /-- the `os.remove` of the copied code file fails (line 280). -/
  removeCodeFail : Bool
  /-- the `os.remove` of the rewritten test file fails (line 280). -/
  removeTestFail : Bool
deriving Repr

/-- app.py lines 222-233: the import `try` block.  When the spec is `None`
the `ImportError` raised at line 226 is caught at line 231 before the
registry insertion at line 228 happens; otherwise the module is registered
under its unique name, its top-level code runs (possibly registering
further modules, possibly raising).  `some msg` is the early
`return msg, False` of line 233. -/
def import_block (env : RunEnv) (unique_module_name : String) (st : Sys) :
    Option String × Sys :=
  if env.specNone then
    (some ("Failed to import module " ++ unique_module_name ++
      ": Could not load spec for " ++ unique_module_name), st)
  else
    let st := { st with modules := insertModule unique_module_name st.modules }
    let st := { st with modules :=
      env.execAdds.foldl (fun ms n => insertModule n ms) st.modules }
    match env.execErr with
    | some e => (some ("Failed to import module " ++ unique_module_name ++ ": " ++ e), st)
    | none => (none, st)

/-- app.py lines 235-259: the discovery/execution `try` block.  Discovery
may raise (caught at line 257), may register modules (it imports the
matching test file), and reports its case count; a zero count returns
`("No test cases found", False)` at line 242; otherwise the runner
executes the suite, and the captured report plus
`result.wasSuccessful()` are returned (line 255). -/
def run_tests_block (env : RunEnv) (st : Sys) :
    Except PyErr (String × Bool) × Sys :=
  match env.discoverErr with
  | some e => (.ok ("Error running tests: " ++ e, false), st)
  | none =>
    let st := { st with modules :=
      env.discoverAdds.foldl (fun ms n => insertModule n ms) st.modules }
    if env.testCount == 0 then (.ok ("No test cases found", false), st)
    else
      match env.runRaise with
      | some e => (.ok ("Error running tests: " ++ e, false), st)
      | none =>
        (.ok (env.runOutput,
          wasSuccessful env.runErrors env.runFailures env.runUnexpectedSuccesses), st)

/-- app.py lines 216-259: the body of the inner `try` (before its
`except` at line 261 and `finally` at line 264): change into the
workspace, extend `sys.path`, then run the import block and, on import
success, the test block. -/
def inner_try (env : RunEnv) (unique_module_name temp_dir : String) (st : Sys) :
    Except PyErr (String × Bool) × Sys :=
  match chdir temp_dir st with
  | (.error e, st) => (.error e, st)
  | (.ok _, st) =>
    let st := if st.searchPath.contains temp_dir then st
              else { st with searchPath := temp_dir :: st.searchPath }
    match import_block env unique_module_name st with
    | (some msg, st) => (.ok (msg, false), st)
    | (none, st) => run_tests_block env st

/-- app.py lines 193-270: the outer `try` body of `run_unit_tests`,
including the inner `except` (line 261, which converts any escaped
exception into `("Unexpected error: ...", False)`) and the inner
`finally` (lines 264-270: restore the working directory and `sys.path`,
scrub the two unique identities from the registry).  An `.error` result
is an exception escaping to the outer `except` at line 272 — in the
source that is the initial `open(code_file)` failing. -/
def rut_body (env : RunEnv) (test_code code_file module_name temp_dir : String) (st : Sys) :
    Except PyErr (String × Bool) × Sys :=
  let unique_module_name := module_name ++ "_" ++ env.uid
  let unique_test_module := "test_" ++ unique_module_name
  let unique_code_file := temp_dir ++ "/" ++ unique_module_name ++ ".py"
  let test_file_path := temp_dir ++ "/" ++ unique_test_module ++ ".py"
  match getFile code_file st.files with
  | none => (.error ⟨"No such file or directory: " ++ code_file⟩, st)
  | some code_content =>
    let st := { st with files := setFile unique_code_file code_content st.files }
    let updated_test_code :=
      strReplace
        (strReplace test_code ("from " ++ module_name ++ " import")
          ("from " ++ unique_module_name ++ " import"))
        ("import " ++ module_name) ("import " ++ unique_module_name)
    let st := { st with files := setFile test_file_path updated_test_code st.files }
    let st := { st with modules :=
      clean_module_cache [module_name, unique_module_name, unique_test_module] st.modules }
    let original_dir := st.cwd
    let original_sys_path := st.searchPath
    let inner := inner_try env unique_module_name temp_dir st
    let res := match inner.1 with
      | .error e => Except.ok ("Unexpected error: " ++ e.msg, false)
      | .ok v => Except.ok v
    let st2 := inner.2
    let st3 := { st2 with
      cwd := original_dir
      searchPath := original_sys_path
      modules := clean_module_cache [unique_module_name, unique_test_module] st2.modules }
    (res, st3)

/-- app.py lines 277-282: `if os.path.exists(p): try: os.remove(p) except:
log` — a failed removal is logged, never raised. -/
def removeIfExists (fails : Bool) (path : String) (st : Sys) : Sys :=
  if (getFile path st.files).isSome then
    if fails then st else { st with files := removeFile path st.files }
  else st

/-- Model of `run_unit_tests` (app.py lines 182-282): the outer `try` body, the
outer `except` at line 272 (turning any escaped exception into
`("Error in test setup: ...", False)`) and the outer `finally` at
lines 275-282 (best-effort removal of the two files the harness itself
created). -/
def run_unit_tests (env : RunEnv) (test_code code_file module_name temp_dir : String)
    (st : Sys) : Except PyErr (String × Bool) × Sys :=
  let unique_module_name := module_name ++ "_" ++ env.uid
  let unique_test_module := "test_" ++ unique_module_name
  let unique_code_file := temp_dir ++ "/" ++ unique_module_name ++ ".py"
  let test_file_path := temp_dir ++ "/" ++ unique_test_module ++ ".py"
  let body := rut_body env test_code code_file module_name temp_dir st
  let res := match body.1 with
    | .error e => Except.ok ("Error in test setup: " ++ e.msg, false)
    | .ok v => Except.ok v
  let st1 := removeIfExists env.removeCodeFail unique_code_file body.2
  (res, removeIfExists env.removeTestFail test_file_path st1)

/-- Model of `fix_syntax` (app.py lines 72-129): two external calls; a request
failure, an empty cleaned body or a generated fix that does not re-parse
raises an `HTTPException` with status 500, modelled as `.error`.
`resp1`/`resp2` are the two network responses, `parses` the `ast.parse`
oracle. -/
def fix_syn (resp1 resp2 : Except String String) (parses : String → Bool) :
    Except PyErr (String × String) :=
  match resp1 with
  | .error e => .error ⟨"Error generating syntax fix explanation with Groq API: " ++ e⟩
  | .ok fix_explanation =>
    match resp2 with
    | .error e => .error ⟨"Error generating fixed code with Groq API: " ++ e⟩
    | .ok body =>
      let fixed_code := clean_code body
      if fixed_code == "" then
        .error ⟨"Error generating fixed code with Groq API: Invalid fixed code generated"⟩
      else if parses fixed_code then .ok (fix_explanation, fixed_code)
      else .error ⟨"Error generating fixed code with Groq API: Invalid fixed code generated: SyntaxError"⟩

/-- Model of `generate_unit_tests` (app.py lines 132-179): one external call; a
request failure, an empty cleaned body or generated test code that does
not re-parse raises an `HTTPException` with status 500, modelled as
`.error`. -/
def generate_unit_tests (resp : Except String String) (parses : String → Bool) :
    Except PyErr String :=
  match resp with
  | .error e => .error ⟨"Error generating unit tests with Groq API: " ++ e⟩
  | .ok body =>
    let test_code := clean_code body
    if test_code == "" then
      .error ⟨"Error generating unit tests with Groq API: Invalid test code generated"⟩
    else if parses test_code then .ok test_code
    else .error ⟨"Error generating unit tests with Groq API: Invalid test code generated: SyntaxError"⟩

/-- app.py lines 380-391: the logical-fix code-generation attempt inside
`upload_code_file` — network call, `clean_code`, emptiness check and
re-parse check; every failure is an `.error` (caught locally at
line 392). -/
def generate_fixed_code (resp : Except String String) (parses : String → Bool) :
    Except String String :=
  match resp with
  | .error e => .error e
  | .ok body =>
    let fixed_code := clean_code body
    if fixed_code == "" then .error "Fixed code is empty"
    else if parses fixed_code then .ok fixed_code
    else .error "Generated fixed code has syntax errors"

/-- The JSON document assembled at app.py lines 422-436 (`syntax_check`
and `syntax_fix_explanation` are rendered here as `syn_check` and
`syn_fix_explanation`). -/
structure Report where
  syn_check : String
  pylint_results : String
  generated_test_code : String
  original_test_results : String
  original_test_success : Bool
  syn_fix_explanation : String
  logical_fix_explanation : String
  fixed_code : String
  fixed_test_code : String
  fixed_test_results : String
  fixed_test_success : Bool
deriving Repr, DecidableEq

/-- Environment resolving the external effects of one `upload_code_file`
request: the upload itself, the `ast.parse` oracle, every network
response, the two `mkdtemp` results and the two nested `run_unit_tests`
environments. -/
structure UploadEnv where
  /-- Value of `file.filename`. -/
  filename : String
  /-- Value of `os.getenv("GROQ_API_KEY")`. -/
  apiKey : Option String
  /-- the uploaded bytes. -/
  fileContent : String
  /-- Whether `ast.parse` succeeds on the given source text. -/
  parses : String → Bool
  /-- response to the first call inside `fix_syntax`. -/
  fixSynResp1 : Except String String
  /-- response to the second call inside `fix_syntax`. -/
  fixSynResp2 : Except String String
  /-- the pylint report text captured at line 338. -/
  pylintOut : String
  /-- response to `generate_unit_tests` for the original module (line 349). -/
  genTestsOrigResp : Except String String
  /-- effects of `run_unit_tests` on the original code (line 352). -/
  runOrig : RunEnv
  /-- response to the plain-English explanation call (line 366). -/
  explanationResp : Except String String
  /-- response to the logical-fix code-generation call (line 381). -/
  fixGenResp : Except String String
  /-- Value of `tempfile.mkdtemp(prefix="code_analysis_")` (line 297). -/
  tempDir : String
  /-- Value of `tempfile.mkdtemp(prefix="fixed_code_analysis_")` (line 398). -/
  fixedTempDir : String
  /-- response to `generate_unit_tests` for the fixed module (line 410). -/
  genTestsFixedResp : Except String String
  /-- effects of `run_unit_tests` on the fixed code (line 413). -/
  runFixed : RunEnv

/-- Model of `os.path.splitext(name)[0]` for a filename ending in `.py` (the
endpoint guard at line 289 guarantees the extension). -/
def splitext_root (name : String) : String := strDropRight name 3

/-- app.py lines 401-415: the body of the fixed-code `try` block (its
`finally` at line 417 is applied by the caller): save the fixed code,
generate tests for it, run them.  `.error` is an exception propagating
out (a failed test generation). -/
def fixed_branch (env : UploadEnv) (original_module fixed_code : String) (st : Sys) :
    Except PyErr (String × String × Bool) × Sys :=
  let fixed_module_name := "fixed_" ++ original_module
  let fixed_code_file := env.fixedTempDir ++ "/" ++ fixed_module_name ++ ".py"
  let st := { st with files := setFile fixed_code_file fixed_code st.files }
  match generate_unit_tests env.genTestsFixedResp env.parses with
  | .error e => (.error e, st)
  | .ok fixed_test_code =>
    let p := run_unit_tests env.runFixed fixed_test_code fixed_code_file fixed_module_name
      env.fixedTempDir st
    match p.1 with
    | .error e => (.error e, p.2)
    | .ok (ftr, fts) => (.ok (fixed_test_code, ftr, fts), p.2)

/-- app.py lines 331-436: the pipeline from the pylint step onward, in
the straight-line form it has in the source once the syntax step has
produced `code` (and possibly rewritten the uploaded file).  An `.error`
result is an exception propagating to line 438; every recovered failure
(explanation call, logical-fix generation) is handled in place exactly
as in the source. -/
def upload_after_syn (env : UploadEnv) (rmFixedFail : Bool) (code_file original_module : String)
    (syn_message : String) (syn_fixed : Bool) (syn_fix_explanation code : String) (st : Sys) :
    Except PyErr Report × Sys :=
  let pylint_result := env.pylintOut
  let issues :=
    (if syn_fixed then "Small fixes needed:\n" ++ syn_fix_explanation ++ "\n\n" else "") ++
    (if pylint_result != "" then "Code style suggestions:\n" ++ pylint_result ++ "\n" else "")
  let _issues := if strTrim issues == "" then "Your code looks great!" else issues
  match generate_unit_tests env.genTestsOrigResp env.parses with
  | .error e => (.error e, st)
  | .ok test_code =>
    let p := run_unit_tests env.runOrig test_code code_file original_module env.tempDir st
    match p.1 with
    | .error e => (.error e, p.2)
    | .ok (original_test_results, original_test_success) =>
      let st := p.2
      let explanation0 :=
        match env.explanationResp with
        | .ok s => s
        | .error _ => "Unable to generate explanation at this time."
      let fc := generate_fixed_code env.fixGenResp env.parses
      let fixed_code := match fc with | .ok f => f | .error _ => code
      let logical_fix_explanation := match fc with
        | .ok _ => explanation0
        | .error _ => "Unable to generate fixes at this time."
      let st := { st with dirs := env.fixedTempDir :: st.dirs }
      let q := fixed_branch env original_module fixed_code st
      let st := rmtree rmFixedFail env.fixedTempDir q.2
      match q.1 with
      | .error e => (.error e, st)
      | .ok (fixed_test_code, fixed_test_results, fixed_test_success) =>
        (.ok {
          syn_check := syn_message
          pylint_results := if pylint_result != "" then pylint_result else "Code style looks good!"
          generated_test_code := test_code
          original_test_results := original_test_results
          original_test_success := original_test_success
          syn_fix_explanation := syn_fix_explanation
          logical_fix_explanation := logical_fix_explanation
          fixed_code := fixed_code
          fixed_test_code := fixed_test_code
          fixed_test_results := fixed_test_results
          fixed_test_success := fixed_test_success }, st)

/-- app.py lines 300-436: the body of the outer `try` of
`upload_code_file` (its `except` at line 438 and `finally` at line 441
are applied by the caller): save the upload, run the syntax check and
(on a syntax error) the external repair — whose failure propagates —
then continue with the rest of the pipeline. -/
def upload_body (env : UploadEnv) (rmFixedFail : Bool) (st : Sys) :
    Except PyErr Report × Sys :=
  let code_file := env.tempDir ++ "/" ++ env.filename
  let st := { st with files := setFile code_file env.fileContent st.files }
  let original_module := splitext_root env.filename
  let code0 := env.fileContent
  if env.parses code0 then
    upload_after_syn env rmFixedFail code_file original_module "Code looks good!" false "" code0 st
  else
    match fix_syn env.fixSynResp1 env.fixSynResp2 env.parses with
    | .error e => (.error e, st)
    | .ok (expl, fixed) =>
      upload_after_syn env rmFixedFail code_file original_module
        "Found a small error: missing punctuation or typo" true expl fixed
        { st with files := setFile code_file fixed st.files }

/-- Model of `upload_code_file` (app.py lines 285-444): the two pre-flight guards
(file extension, credential) reject before any workspace is created; then
the main workspace is allocated, the pipeline body runs, any escaped
exception is wrapped into an `HTTPException` with status 500 (line 440),
and the `finally` at line 441 best-effort-deletes the main workspace.
`rmMainFail`/`rmFixedFail` say whether the two suppressed
`shutil.rmtree` deletions fail. -/
def upload_code_file (env : UploadEnv) (rmMainFail rmFixedFail : Bool) (st : Sys) :
    Except HTTPError Report × Sys :=
  if !(strEndsWith env.filename ".py") then
    (.error ⟨400, "File must be a .py file"⟩, st)
  else
    match env.apiKey with
    | none => (.error ⟨500, "GROQ_API_KEY environment variable is not set."⟩, st)
    | some _ =>
      let st := { st with dirs := env.tempDir :: st.dirs }
      let p := upload_body env rmFixedFail st
      let res : Except HTTPError Report :=
        match p.1 with
        | .error e => .error ⟨500, "Internal Server Error: " ++ e.msg⟩
        | .ok r => .ok r
      (res, rmtree rmMainFail env.tempDir p.2)

/-! Section: Basic lemmas about the registry scrubber -/

/-- An entry survives a scrub iff it was present and matches none of the
patterns. -/
theorem mem_clean_module_cache {pats mods : List String} {m : String} :
    m ∈ clean_module_cache pats mods ↔
      m ∈ mods ∧ ∀ p ∈ pats, strContains m p = false := by
  simp [clean_module_cache, List.mem_filter, List.any_eq_false]

/-- A pattern longer than the name is never contained in it. -/
theorem strContains_eq_false_of_lt {name pat : String}
    (h : name.length < pat.length) : strContains name pat = false := by
  simp only [strContains, decide_eq_false_iff_not]
  intro hin
  have hle : pat.data.length ≤ name.data.length := hin.length_le
  have h' : name.data.length < pat.data.length := h
  omega

/-- Two unique identities built from the same base and same-length but
different random tokens never contain each other. -/
theorem strContains_uid_ne {base tokA tokB : String}
    (hlen : tokA.length = tokB.length) (hne : tokA ≠ tokB) :
    strContains (base ++ "_" ++ tokB) (base ++ "_" ++ tokA) = false := by
  simp only [strContains, decide_eq_false_iff_not]
  intro hin
  have hlen2 : (base ++ "_" ++ tokA).data.length = (base ++ "_" ++ tokB).data.length := by
    have h1 : tokA.data.length = tokB.data.length := hlen
    simp [String.data_append, List.length_append, h1]
  have heq := hin.eq_of_length hlen2
  apply hne
  apply String.ext
  have hdata : (base.data ++ "_".data) ++ tokA.data = (base.data ++ "_".data) ++ tokB.data := by
    simpa [String.data_append] using heq
  exact List.append_cancel_left hdata

/-- String length distributes over append. -/
theorem strLength_append (a b : String) : (a ++ b).length = a.length + b.length := by
  show (a ++ b).data.length = a.data.length + b.data.length
  rw [String.data_append, List.length_append]

/-- Containing `test_<u>` implies containing `<u>`. -/
theorem strContains_of_test {m u : String}
    (h : strContains m ("test_" ++ u) = true) : strContains m u = true := by
  simp only [strContains, decide_eq_true_eq] at *
  refine List.IsInfix.trans ?_ h
  rw [String.data_append]
  exact (List.suffix_append _ _).isInfix

/-- Claim C9. The registry scrub `clean_module_cache` is idempotent: for
every pattern set and every starting registry, running it twice leaves
the registry exactly as running it once, and the second invocation (like
every invocation) is a total function — it cannot raise, even when no
entry matches. -/
theorem clean_module_cache_idempotent (pats mods : List String) :
    clean_module_cache pats (clean_module_cache pats mods) = clean_module_cache pats mods := by
  simp [clean_module_cache, List.filter_filter]

/-! Section: C4: scrubbing and concurrent same-filename Runs -/

/-- A run environment whose import, discovery and execution all succeed. -/
def happyEnv : RunEnv :=
  { uid := "aaaa1111", specNone := false, execErr := none, execAdds := [],
    discoverErr := none, discoverAdds := [], testCount := 1, runRaise := none,
    runOutput := "ok", runErrors := 0, runFailures := 0, runUnexpectedSuccesses := 0,
    removeCodeFail := false, removeTestFail := false }

/-- A registry holding the unique identity of a concurrent Run with the
same base filename (`calculator`) but a different random token. -/
def stOtherRun : Sys :=
  { modules := ["calculator_bbbb2222"], cwd := "/", searchPath := ["/lib"],
    files := [("/w/calculator.py", "class Calculator: pass")], dirs := ["/w"] }

/-- Claim C4 counterexample. A registry entry registered under the *other*
Run's unique identity `calculator_bbbb2222` — which contains neither this
Run's unique module identity `calculator_aaaa1111` nor its unique
test-module identity — is nevertheless gone from the registry after this
Run executes `run_unit_tests`: the pre-load scrub at app.py line 210 uses
the bare base name `calculator` as one of its patterns and so removes the
other Run's entry.  This refutes the claim that one Run's scrub
operations never remove an entry registered under the other Run's unique
identity. -/
theorem scrub_removes_other_run_entry :
    "calculator_bbbb2222" ∈ stOtherRun.modules ∧
    strContains "calculator_bbbb2222" ("calculator" ++ "_" ++ happyEnv.uid) = false ∧
    strContains "calculator_bbbb2222" ("test_" ++ ("calculator" ++ "_" ++ happyEnv.uid)) = false ∧
    clean_module_cache
      ["calculator", "calculator" ++ "_" ++ happyEnv.uid,
        "test_" ++ ("calculator" ++ "_" ++ happyEnv.uid)] stOtherRun.modules = [] ∧
    "calculator_bbbb2222" ∉
      (run_unit_tests happyEnv "import calculator" "/w/calculator.py" "calculator" "/w"
        stOtherRun).2.modules := by
  decide

/-- Claim C4 (amended). The *post-run* scrub — whose patterns are only the
Run's own unique identities `<base>_<tokA>` and `test_<base>_<tokA>` —
never removes a registry entry registered under the other Run's unique
identity `<base>_<tokB>` when the two same-length random tokens differ.
The *pre-load* scrub, however, also uses the bare base name as a pattern
and therefore does remove the other concurrent Run's entry (see the
counterexample), so only the post-run half of the claimed frame property
holds. -/
theorem postrun_scrub_preserves_other_run (base tokA tokB : String) (mods : List String)
    (hlen : tokA.length = tokB.length) (hne : tokA ≠ tokB)
    (hmem : (base ++ "_" ++ tokB) ∈ mods) :
    (base ++ "_" ++ tokB) ∈
      clean_module_cache
        [base ++ "_" ++ tokA, "test_" ++ (base ++ "_" ++ tokA)] mods := by
  rw [mem_clean_module_cache]
  refine ⟨hmem, ?_⟩
  intro p hp
  rcases List.mem_pair.mp hp with h | h
  · subst h
    exact strContains_uid_ne hlen hne
  · subst h
    apply strContains_eq_false_of_lt
    simp only [strLength_append]
    have h5 : ("test_" : String).length = 5 := rfl
    have hu : ("_" : String).length = 1 := rfl
    omega

/-- Witness for the amended C4 at concrete inputs. -/
theorem postrun_scrub_preserves_other_run_witness :
    ("calculator" ++ "_" ++ "bbbb2222") ∈
      clean_module_cache
        ["calculator" ++ "_" ++ "aaaa1111", "test_" ++ ("calculator" ++ "_" ++ "aaaa1111")]
        ["os", "calculator" ++ "_" ++ "bbbb2222"] :=
  postrun_scrub_preserves_other_run "calculator" "aaaa1111" "bbbb2222"
    ["os", "calculator" ++ "_" ++ "bbbb2222"] (by decide) (by decide) (by decide)

/-! Section: C1, C3: the harness never raises and leaves no trace in the registry -/

/-- The best-effort file removal never touches the module registry. -/
theorem removeIfExists_modules (f : Bool) (p : String) (st : Sys) :
    (removeIfExists f p st).modules = st.modules := by
  unfold removeIfExists
  split
  · split <;> rfl
  · rfl

/-- The harness always returns an outcome: its first component is `.ok`. -/
theorem rut_fst_ok (env : RunEnv) (tc cf mn td : String) (st : Sys) :
    ∃ v, (run_unit_tests env tc cf mn td st).1 = Except.ok v := by
  cases h : (rut_body env tc cf mn td st).1 with
  | error e =>
    refine ⟨("Error in test setup: " ++ e.msg, false), ?_⟩
    simp only [run_unit_tests, h]
  | ok v =>
    refine ⟨v, ?_⟩
    simp only [run_unit_tests, h]

/-- Claim C1. For every environment (any test source text, code file path,
module name, workspace directory) and every starting state, the harness
`run_unit_tests` returns a Test Outcome — a pair of report text and
success flag wrapped in `.ok` — and never propagates an exception
(`.error`) to the caller: every raise inside it, including a failing
source-unit import, a failing test-module import and a raise during
discovery or execution, is caught and converted to an outcome. -/
theorem run_unit_tests_total (env : RunEnv) (test_code code_file module_name temp_dir : String)
    (st : Sys) :
    ∃ outcome st', run_unit_tests env test_code code_file module_name temp_dir st =
      (Except.ok outcome, st') := by
  obtain ⟨v, hv⟩ := rut_fst_ok env test_code code_file module_name temp_dir st
  refine ⟨v, (run_unit_tests env test_code code_file module_name temp_dir st).2, ?_⟩
  rw [← hv]

/-- When the setup read fails, `rut_body` leaves the registry untouched
(the outer `except` at line 272 is reached before any registry
operation). -/
theorem rut_body_modules_none (env : RunEnv) (tc cf mn td : String) (st : Sys)
    (hg : getFile cf st.files = none) :
    (rut_body env tc cf mn td st).2.modules = st.modules := by
  simp only [rut_body, hg]

/-- When the setup read succeeds, `rut_body` ends with the inner
`finally` of lines 264-270, which scrubs the Run's two unique identities
from whatever the registry holds at that point. -/
theorem rut_body_modules_clean (env : RunEnv) (tc cf mn td c : String) (st : Sys)
    (hg : getFile cf st.files = some c) :
    ∀ m ∈ (rut_body env tc cf mn td st).2.modules,
      strContains m (mn ++ "_" ++ env.uid) = false ∧
      strContains m ("test_" ++ (mn ++ "_" ++ env.uid)) = false := by
  intro m hm
  simp only [rut_body, hg] at hm
  rw [mem_clean_module_cache] at hm
  obtain ⟨-, hall⟩ := hm
  exact ⟨hall _ (by simp), hall _ (by simp)⟩

/-- Claim C3. After any invocation of `run_unit_tests`, the module registry
contains no entry whose name contains the Run's freshly allocated unique
module identity `<module_name>_<uid>` or unique test-module identity
`test_<module_name>_<uid>` — including on paths where loading the source
unit raised after the registry entry was inserted.  Freshness of the
allocated identity is the hypothesis: no pre-existing entry contains it. -/
theorem run_unit_tests_registry_clean (env : RunEnv) (tc cf mn td : String) (st : Sys)
    (hfresh : ∀ m ∈ st.modules, strContains m (mn ++ "_" ++ env.uid) = false) :
    ∀ m ∈ (run_unit_tests env tc cf mn td st).2.modules,
      strContains m (mn ++ "_" ++ env.uid) = false ∧
      strContains m ("test_" ++ (mn ++ "_" ++ env.uid)) = false := by
  intro m hm
  have hmods : (run_unit_tests env tc cf mn td st).2.modules =
      (rut_body env tc cf mn td st).2.modules := by
    simp only [run_unit_tests, removeIfExists_modules]
  rw [hmods] at hm
  rcases hg : getFile cf st.files with _ | c
  · rw [rut_body_modules_none env tc cf mn td st hg] at hm
    have h1 := hfresh m hm
    refine ⟨h1, ?_⟩
    cases hct : strContains m ("test_" ++ (mn ++ "_" ++ env.uid)) with
    | false => rfl
    | true => rw [strContains_of_test hct] at h1; exact absurd h1 (by simp)
  · exact rut_body_modules_clean env tc cf mn td c st hg m hm

/-- Witness for C3 at concrete inputs: the starting registry holds a
stale same-base entry with a different token (fresh for this Run), and
after the Run no entry contains this Run's identities. -/
theorem run_unit_tests_registry_clean_witness :
    (∀ m ∈ stOtherRun.modules,
      strContains m ("calculator" ++ "_" ++ happyEnv.uid) = false) ∧
    ∀ m ∈ (run_unit_tests happyEnv "import calculator"
        "/w/calculator.py" "calculator" "/w" stOtherRun).2.modules,
      strContains m ("calculator" ++ "_" ++ happyEnv.uid) = false ∧
      strContains m ("test_" ++ ("calculator" ++ "_" ++ happyEnv.uid)) = false :=
  ⟨by decide, run_unit_tests_registry_clean happyEnv "import calculator"
    "/w/calculator.py" "calculator" "/w" stOtherRun (by decide)⟩

/-! Section: C7, C8: the outcomes of a completed discovery/execution -/

/-- Claim C7. When the source unit loads successfully (readable code file,
existing workspace, non-`None` spec, no exception from top-level
execution) and discovery raises nothing but yields zero test cases, the
harness returns exactly the outcome `("No test cases found", false)`
rather than raising. -/
theorem run_unit_tests_no_cases (env : RunEnv) (tc cf mn td c : String) (st : Sys)
    (hread : getFile cf st.files = some c)
    (hdir : st.dirs.contains td = true)
    (hspec : env.specNone = false)
    (hexec : env.execErr = none)
    (hdisc : env.discoverErr = none)
    (hcount : env.testCount = 0) :
    (run_unit_tests env tc cf mn td st).1 = Except.ok ("No test cases found", false) := by
  have hc : (env.testCount == 0) = true := by simp [hcount]
  simp only [run_unit_tests, rut_body, inner_try, import_block, run_tests_block, chdir,
    hread, hspec, hexec, hdisc, hc, hdir, if_true, Bool.false_eq_true, if_false, ite_self]

/-- Witness for C7 at concrete inputs. -/
theorem run_unit_tests_no_cases_witness :
    (run_unit_tests { happyEnv with testCount := 0 } "import calculator" "/w/calculator.py"
      "calculator" "/w" stOtherRun).1 = Except.ok ("No test cases found", false) :=
  run_unit_tests_no_cases { happyEnv with testCount := 0 } "import calculator"
    "/w/calculator.py" "calculator" "/w" "class Calculator: pass" stOtherRun
    (by decide) (by decide) rfl rfl rfl rfl

/-- Claim C8 counterexample. A run whose suite executes to completion
(one discovered case, no raise) with zero reported errors and zero
reported failures but one unexpected success returns the success flag
`false`: `unittest.TestResult.wasSuccessful` also requires zero
unexpected successes, so "true iff zero errors and zero failures" fails
in the left-to-right-completeness direction. -/
theorem success_flag_not_iff_zero_errors_failures :
    (run_unit_tests { happyEnv with runUnexpectedSuccesses := 1 } "import calculator"
      "/w/calculator.py" "calculator" "/w" stOtherRun).1 = Except.ok ("ok", false) ∧
    ({ happyEnv with runUnexpectedSuccesses := 1 } : RunEnv).runErrors = 0 ∧
    ({ happyEnv with runUnexpectedSuccesses := 1 } : RunEnv).runFailures = 0 ∧
    ({ happyEnv with runUnexpectedSuccesses := 1 } : RunEnv).testCount = 1 ∧
    ({ happyEnv with runUnexpectedSuccesses := 1 } : RunEnv).runRaise = none :=
  ⟨rfl, rfl, rfl, rfl, rfl⟩

/-- Claim C8 (amended). When the suite executes to completion, the
returned success flag is true iff the run reported zero errors, zero
failures *and zero unexpected successes* (the extra condition imposed by
`unittest.TestResult.wasSuccessful`). -/
theorem run_unit_tests_success_iff (env : RunEnv) (tc cf mn td c : String) (st : Sys)
    (hread : getFile cf st.files = some c)
    (hdir : st.dirs.contains td = true)
    (hspec : env.specNone = false)
    (hexec : env.execErr = none)
    (hdisc : env.discoverErr = none)
    (hcount : env.testCount ≠ 0)
    (hraise : env.runRaise = none) :
    ∃ b, (run_unit_tests env tc cf mn td st).1 = Except.ok (env.runOutput, b) ∧
      (b = true ↔ env.runErrors = 0 ∧ env.runFailures = 0 ∧
        env.runUnexpectedSuccesses = 0) := by
  have hc : (env.testCount == 0) = false := by simp [hcount]
  refine ⟨wasSuccessful env.runErrors env.runFailures env.runUnexpectedSuccesses, ?_, ?_⟩
  · simp only [run_unit_tests, rut_body, inner_try, import_block, run_tests_block, chdir,
      hread, hspec, hexec, hdisc, hraise, hdir, hc, if_true, Bool.false_eq_true, if_false,
      ite_self]
  · simp only [wasSuccessful, Bool.and_eq_true, beq_iff_eq]
    tauto

/-- Witness for the amended C8 at concrete inputs. -/
theorem run_unit_tests_success_iff_witness :
    ∃ b, (run_unit_tests happyEnv "import calculator" "/w/calculator.py" "calculator" "/w"
        stOtherRun).1 = Except.ok (happyEnv.runOutput, b) ∧
      (b = true ↔ happyEnv.runErrors = 0 ∧ happyEnv.runFailures = 0 ∧
        happyEnv.runUnexpectedSuccesses = 0) :=
  run_unit_tests_success_iff happyEnv "import calculator" "/w/calculator.py" "calculator"
    "/w" "class Calculator: pass" stOtherRun (by decide) (by decide) rfl rfl rfl
    (by decide) rfl

/-! Section: C10: the harness removes the files it created -/

/-- A lookup finds nothing among pairs whose key was filtered away. -/
theorem lookup_filter_ne_self (p : String) (fs : List (String × String)) :
    (fs.filter (fun f => f.1 != p)).lookup p = none := by
  induction fs with
  | nil => rfl
  | cons a t ih =>
    by_cases h : a.1 = p
    · simp [List.filter_cons, h, ih]
    · have hpa : (p == a.1) = false := by
        rw [beq_eq_false_iff_ne]
        exact fun hh => h hh.symm
      simp [List.filter_cons, h, List.lookup, hpa, ih]

/-- Filtering never makes a lookup succeed. -/
theorem lookup_filter_none (p : String) (pred : String × String → Bool)
    (fs : List (String × String)) (h : fs.lookup p = none) :
    (fs.filter pred).lookup p = none := by
  induction fs with
  | nil => rfl
  | cons a t ih =>
    rw [List.lookup] at h
    cases hpa : (p == a.1) with
    | true => rw [hpa] at h; cases h
    | false =>
      rw [hpa] at h
      rw [List.filter_cons]
      cases hpred : pred a with
      | true => simp only [if_true, List.lookup, hpa]; exact ih h
      | false => simp only [Bool.false_eq_true, if_false]; exact ih h

/-- After a successful best-effort removal of `p`, the file `p` is gone
(whether or not it existed). -/
theorem getFile_removeIfExists_self (p : String) (st : Sys) :
    getFile p (removeIfExists false p st).files = none := by
  unfold removeIfExists
  split
  · show getFile p (removeFile p st.files) = none
    exact lookup_filter_ne_self p st.files
  · rename_i hns
    exact Option.not_isSome_iff_eq_none.mp hns

/-- A best-effort removal never makes an absent file reappear. -/
theorem getFile_removeIfExists_none (f : Bool) (q p : String) (st : Sys)
    (h : getFile p st.files = none) :
    getFile p (removeIfExists f q st).files = none := by
  unfold removeIfExists
  split
  · split
    · exact h
    · exact lookup_filter_none p _ st.files h
  · exact h

/-- Claim C10. On every exit path of `run_unit_tests` — success, import
failure, discovery/execution failure or setup failure — the two uniquely
named files created by the harness inside the workspace (the copied
source unit and the rewritten test module) are absent from disk when the
function returns, provided the two suppressed `os.remove` calls
themselves succeed (a failed removal is logged, never raised). -/
theorem run_unit_tests_cleans_own_files (env : RunEnv) (tc cf mn td : String) (st : Sys)
    (h1 : env.removeCodeFail = false) (h2 : env.removeTestFail = false) :
    getFile (td ++ "/" ++ (mn ++ "_" ++ env.uid) ++ ".py")
      (run_unit_tests env tc cf mn td st).2.files = none ∧
    getFile (td ++ "/" ++ ("test_" ++ (mn ++ "_" ++ env.uid)) ++ ".py")
      (run_unit_tests env tc cf mn td st).2.files = none := by
  have hsnd : (run_unit_tests env tc cf mn td st).2 =
      removeIfExists env.removeTestFail
        (td ++ "/" ++ ("test_" ++ (mn ++ "_" ++ env.uid)) ++ ".py")
        (removeIfExists env.removeCodeFail
          (td ++ "/" ++ (mn ++ "_" ++ env.uid) ++ ".py")
          (rut_body env tc cf mn td st).2) := by
    simp only [run_unit_tests]
  rw [hsnd, h1, h2]
  constructor
  · exact getFile_removeIfExists_none false _ _ _ (getFile_removeIfExists_self _ _)
  · exact getFile_removeIfExists_self _ _

/-- Witness for C10 at concrete inputs. -/
theorem run_unit_tests_cleans_own_files_witness :
    getFile ("/w" ++ "/" ++ ("calculator" ++ "_" ++ happyEnv.uid) ++ ".py")
      (run_unit_tests happyEnv "import calculator" "/w/calculator.py" "calculator" "/w"
        stOtherRun).2.files = none ∧
    getFile ("/w" ++ "/" ++ ("test_" ++ ("calculator" ++ "_" ++ happyEnv.uid)) ++ ".py")
      (run_unit_tests happyEnv "import calculator" "/w/calculator.py" "calculator" "/w"
        stOtherRun).2.files = none :=
  run_unit_tests_cleans_own_files happyEnv "import calculator" "/w/calculator.py"
    "calculator" "/w" stOtherRun rfl rfl

/-! Section: State-preservation lemmas for the upload pipeline -/

theorem chdir_snd_dirs (d : String) (st : Sys) : (chdir d st).2.dirs = st.dirs := by
  unfold chdir; split <;> rfl

theorem import_block_dirs (env : RunEnv) (u : String) (st : Sys) :
    (import_block env u st).2.dirs = st.dirs := by
  unfold import_block
  dsimp only
  repeat' split
  all_goals rfl

theorem run_tests_block_dirs (env : RunEnv) (st : Sys) :
    (run_tests_block env st).2.dirs = st.dirs := by
  unfold run_tests_block
  dsimp only
  repeat' split
  all_goals rfl

theorem inner_try_dirs (env : RunEnv) (u td : String) (st : Sys) :
    (inner_try env u td st).2.dirs = st.dirs := by
  unfold inner_try
  rcases hch : chdir td st with ⟨cres, cst⟩
  have hcd : cst.dirs = st.dirs := by
    have h := chdir_snd_dirs td st
    rw [hch] at h
    exact h
  cases cres with
  | error e => exact hcd
  | ok u_ =>
    dsimp only
    rcases him : import_block env u (if cst.searchPath.contains td = true then cst
        else { cst with searchPath := td :: cst.searchPath }) with ⟨ires, ist⟩
    have hid : ist.dirs = cst.dirs := by
      have h := import_block_dirs env u (if cst.searchPath.contains td = true then cst
        else { cst with searchPath := td :: cst.searchPath })
      rw [him] at h
      rw [h]
      split <;> rfl
    cases ires with
    | some msg => exact hid.trans hcd
    | none => rw [run_tests_block_dirs]; exact hid.trans hcd

theorem rut_body_dirs (env : RunEnv) (tc cf mn td : String) (st : Sys) :
    (rut_body env tc cf mn td st).2.dirs = st.dirs := by
  rcases hg : getFile cf st.files with _ | c
  · simp only [rut_body, hg]
  · simp only [rut_body, hg]
    rw [inner_try_dirs]

theorem removeIfExists_dirs (f : Bool) (p : String) (st : Sys) :
    (removeIfExists f p st).dirs = st.dirs := by
  unfold removeIfExists
  split
  · split <;> rfl
  · rfl

theorem run_unit_tests_dirs (env : RunEnv) (tc cf mn td : String) (st : Sys) :
    (run_unit_tests env tc cf mn td st).2.dirs = st.dirs := by
  have h : (run_unit_tests env tc cf mn td st).2 =
      removeIfExists env.removeTestFail (td ++ "/" ++ ("test_" ++ (mn ++ "_" ++ env.uid)) ++ ".py")
        (removeIfExists env.removeCodeFail (td ++ "/" ++ (mn ++ "_" ++ env.uid) ++ ".py")
          (rut_body env tc cf mn td st).2) := by
    simp only [run_unit_tests]
  rw [h, removeIfExists_dirs, removeIfExists_dirs, rut_body_dirs]


/-! Section: C2: workspace directories are always released -/

theorem fixed_branch_dirs (env : UploadEnv) (om fc : String) (st : Sys) :
    (fixed_branch env om fc st).2.dirs = st.dirs := by
  unfold fixed_branch
  cases hg : generate_unit_tests env.genTestsFixedResp env.parses with
  | error e => simp only [hg]
  | ok ftc =>
    simp only [hg]
    split <;> rw [run_unit_tests_dirs]

theorem upload_after_syn_dirs (env : UploadEnv) (cf om sm : String) (sf : Bool)
    (sfe code : String) (st : Sys) :
    (upload_after_syn env false cf om sm sf sfe code st).2.dirs = st.dirs ∨
    (upload_after_syn env false cf om sm sf sfe code st).2.dirs =
      st.dirs.filter (fun x => x != env.fixedTempDir) := by
  unfold upload_after_syn
  dsimp only
  cases hg : generate_unit_tests env.genTestsOrigResp env.parses with
  | error e => left; simp only [hg]
  | ok tc =>
    simp only [hg]
    cases hr : (run_unit_tests env.runOrig tc cf om env.tempDir st).1 with
    | error e =>
      left
      simp only [hr]
      exact run_unit_tests_dirs env.runOrig tc cf om env.tempDir st
    | ok v =>
      obtain ⟨otr, ots⟩ := v
      simp only [hr]
      right
      split <;>
        simp [rmtree, fixed_branch_dirs, run_unit_tests_dirs, List.filter_cons]

theorem upload_body_dirs (env : UploadEnv) (st : Sys) :
    (upload_body env false st).2.dirs = st.dirs ∨
    (upload_body env false st).2.dirs = st.dirs.filter (fun x => x != env.fixedTempDir) := by
  unfold upload_body
  dsimp only
  cases hp : env.parses env.fileContent with
  | true =>
    simp only [hp, if_true]
    exact upload_after_syn_dirs env _ _ _ _ _ _ _
  | false =>
    simp only [hp, Bool.false_eq_true, if_false]
    cases hf : fix_syn env.fixSynResp1 env.fixSynResp2 env.parses with
    | error e => left; simp only [hf]
    | ok pr =>
      obtain ⟨expl, fixed⟩ := pr
      simp only [hf]
      exact upload_after_syn_dirs env _ _ _ _ _ _ _

theorem upload_after_syn_fst_flag (env : UploadEnv) (b : Bool) (cf om sm : String)
    (sf : Bool) (sfe code : String) (st : Sys) :
    (upload_after_syn env b cf om sm sf sfe code st).1 =
    (upload_after_syn env false cf om sm sf sfe code st).1 := by
  unfold upload_after_syn
  dsimp only
  cases hg : generate_unit_tests env.genTestsOrigResp env.parses with
  | error e => simp only [hg]
  | ok tc =>
    simp only [hg]
    cases hr : (run_unit_tests env.runOrig tc cf om env.tempDir st).1 with
    | error e => simp only [hr]
    | ok v =>
      obtain ⟨otr, ots⟩ := v
      simp only [hr]
      split <;> rfl

theorem upload_body_fst_flag (env : UploadEnv) (b : Bool) (st : Sys) :
    (upload_body env b st).1 = (upload_body env false st).1 := by
  unfold upload_body
  dsimp only
  cases hp : env.parses env.fileContent with
  | true =>
    simp only [hp, if_true]
    exact upload_after_syn_fst_flag env b _ _ _ _ _ _ _
  | false =>
    simp only [hp, Bool.false_eq_true, if_false]
    cases hf : fix_syn env.fixSynResp1 env.fixSynResp2 env.parses with
    | error e => simp only [hf]
    | ok pr =>
      obtain ⟨expl, fixed⟩ := pr
      simp only [hf]
      exact upload_after_syn_fst_flag env b _ _ _ _ _ _ _



/-- Nothing survives a filter that excludes it. -/
theorem not_mem_filter_bne_self (x : String) (l : List String) :
    x ∉ l.filter (fun y => y != x) := by
  simp [List.mem_filter]

/-- Claim C2. For every Run of the upload pipeline, on every exit path
(normal return or exception at any stage), both temporary workspace
directories — the main one and, once created, the fixed-code one — are
absent when the Run completes, provided the two suppressed `rmtree`
deletions succeed; and a deletion error never changes the Run's outcome
(it is suppressed, not raised): the returned result is the same whatever
the deletion flags are. -/
theorem upload_workspace_released (env : UploadEnv) (st : Sys) (b1 b2 : Bool)
    (h1 : env.tempDir ∉ st.dirs) (h2 : env.fixedTempDir ∉ st.dirs) :
    (env.tempDir ∉ (upload_code_file env false false st).2.dirs ∧
     env.fixedTempDir ∉ (upload_code_file env false false st).2.dirs) ∧
    (upload_code_file env b1 b2 st).1 = (upload_code_file env false false st).1 := by
  constructor
  · unfold upload_code_file
    dsimp only
    split
    · exact ⟨h1, h2⟩
    · split
      · exact ⟨h1, h2⟩
      · constructor
        · intro hmem
          simp only [rmtree, Bool.false_eq_true, if_false] at hmem
          exact not_mem_filter_bne_self _ _ hmem
        · intro hmem
          simp only [rmtree, Bool.false_eq_true, if_false] at hmem
          rcases upload_body_dirs env
              { st with dirs := env.tempDir :: st.dirs } with h | h
          · rw [h] at hmem
            have h3 := List.mem_of_mem_filter hmem
            rcases List.mem_cons.mp h3 with hx | hx
            · rw [hx] at hmem
              exact not_mem_filter_bne_self _ _ hmem
            · exact h2 hx
          · rw [h] at hmem
            have h3 := List.mem_of_mem_filter hmem
            exact not_mem_filter_bne_self _ _ h3
  · unfold upload_code_file
    dsimp only
    split
    · rfl
    · split
      · rfl
      · rw [upload_body_fst_flag env b2]

/-- A fresh process/filesystem state for a concrete upload Run. -/
def stUpload : Sys := { modules := [], cwd := "/", searchPath := [], files := [], dirs := ["/"] }

/-- An upload environment in which every external step succeeds. -/
def uEnvW : UploadEnv :=
  { filename := "calculator.py", apiKey := some "key",
    fileContent := "class Calculator: pass",
    parses := fun _ => true,
    fixSynResp1 := Except.ok "expl", fixSynResp2 := Except.ok "fixed",
    pylintOut := "lint report",
    genTestsOrigResp := Except.ok "import calculator",
    runOrig := happyEnv,
    explanationResp := Except.ok "explain",
    fixGenResp := Except.ok "better code",
    tempDir := "/tmp/main", fixedTempDir := "/tmp/fixed",
    genTestsFixedResp := Except.ok "import fixed_calculator",
    runFixed := { happyEnv with uid := "cccc3333" } }

/-- Witness for C2 at concrete inputs (with both deletions failing in the
flag-independence part). -/
theorem upload_workspace_released_witness :
    (uEnvW.tempDir ∉ (upload_code_file uEnvW false false stUpload).2.dirs ∧
     uEnvW.fixedTempDir ∉ (upload_code_file uEnvW false false stUpload).2.dirs) ∧
    (upload_code_file uEnvW true true stUpload).1 =
      (upload_code_file uEnvW false false stUpload).1 :=
  upload_workspace_released uEnvW stUpload true true (by decide) (by decide)

/-! Section: C5: a fixed-branch test-generation failure aborts the whole Run -/

/-- A failing fixed-module test generation propagates out of the
fixed-code `try` body. -/
theorem fixed_branch_fst_err (env : UploadEnv) (om fc : String) (st : Sys) (e : PyErr)
    (hfix : generate_unit_tests env.genTestsFixedResp env.parses = Except.error e) :
    (fixed_branch env om fc st).1 = Except.error e := by
  unfold fixed_branch
  simp only [hfix]

/-- The exception from a failing fixed-module test generation escapes the
whole post-syntax pipeline. -/
theorem upload_after_syn_fst_fixedfail (env : UploadEnv) (b : Bool)
    (cf om sm : String) (sf : Bool) (sfe code : String) (st : Sys) (tc : String) (e : PyErr)
    (horig : generate_unit_tests env.genTestsOrigResp env.parses = Except.ok tc)
    (hfix : generate_unit_tests env.genTestsFixedResp env.parses = Except.error e) :
    (upload_after_syn env b cf om sm sf sfe code st).1 = Except.error e := by
  unfold upload_after_syn
  dsimp only
  simp only [horig]
  cases hr : (run_unit_tests env.runOrig tc cf om env.tempDir st).1 with
  | error e2 =>
    obtain ⟨v, hv⟩ := rut_fst_ok env.runOrig tc cf om env.tempDir st
    rw [hv] at hr
    cases hr
  | ok v =>
    obtain ⟨otr, ots⟩ := v
    simp only [hr]
    rw [fixed_branch_fst_err env om _ _ e hfix]

/-- An upload environment in which everything succeeds except test
generation for the fixed module. -/
def uEnvFixedFail : UploadEnv := { uEnvW with genTestsFixedResp := Except.error "boom" }

/-- Claim C5 counterexample. A Run in which the original-branch test
generation succeeded (and whose harness run therefore completed) but
test generation for the fixed module fails returns an HTTP 500 error,
not a report: the already-computed original-branch results are discarded,
refuting the claim that a fixed-branch external-service failure does not
abort the Run. -/
theorem upload_drops_original_results :
    generate_unit_tests uEnvFixedFail.genTestsOrigResp uEnvFixedFail.parses =
      Except.ok "import calculator" ∧
    (upload_code_file uEnvFixedFail false false stUpload).1 =
      Except.error ⟨500,
        "Internal Server Error: Error generating unit tests with Groq API: boom"⟩ :=
  ⟨rfl, rfl⟩

/-- Claim C5 (amended). An external-service failure while generating tests
for the fixed module is fatal to the whole Run: the `HTTPException` it
raises propagates to the outer handler (app.py line 438) and the Run
returns an error response; the original-branch results are *not*
returned.  Only the logical-fix code-generation failure is non-fatal
(see C6). -/
theorem upload_aborts_when_fixed_testgen_fails (env : UploadEnv) (st : Sys) (b1 b2 : Bool)
    (tc k : String) (e : PyErr)
    (hext : strEndsWith env.filename ".py" = true)
    (hkey : env.apiKey = some k)
    (hparse : env.parses env.fileContent = true)
    (horig : generate_unit_tests env.genTestsOrigResp env.parses = Except.ok tc)
    (hfix : generate_unit_tests env.genTestsFixedResp env.parses = Except.error e) :
    (upload_code_file env b1 b2 st).1 =
      Except.error ⟨500, "Internal Server Error: " ++ e.msg⟩ := by
  unfold upload_code_file
  dsimp only
  simp only [hext, Bool.not_true, Bool.false_eq_true, if_false, hkey]
  have hb : (upload_body env b2 { st with dirs := env.tempDir :: st.dirs }).1 =
      Except.error e := by
    unfold upload_body
    dsimp only
    simp only [hparse, if_true]
    exact upload_after_syn_fst_fixedfail env b2 _ _ _ _ _ _ _ tc e horig hfix
  rw [hb]

/-- Witness for the amended C5 at concrete inputs. -/
theorem upload_aborts_when_fixed_testgen_fails_witness :
    (upload_code_file uEnvFixedFail true false stUpload).1 =
      Except.error ⟨500, "Internal Server Error: " ++
        (PyErr.mk "Error generating unit tests with Groq API: boom").msg⟩ :=
  upload_aborts_when_fixed_testgen_fails uEnvFixedFail stUpload true false
    "import calculator" "key" ⟨"Error generating unit tests with Groq API: boom"⟩
    (by decide) rfl rfl rfl rfl

/-! Section: C6: the logical-fix generation failure falls back to the pre-fix code -/

/-- When test generation for the fixed module succeeds, the fixed-code
`try` body returns its test code together with the harness outcome. -/
theorem fixed_branch_fst_ok (env : UploadEnv) (om fc : String) (st : Sys) (ftc : String)
    (hfix : generate_unit_tests env.genTestsFixedResp env.parses = Except.ok ftc) :
    ∃ ftr fts, (fixed_branch env om fc st).1 = Except.ok (ftc, ftr, fts) := by
  unfold fixed_branch
  dsimp only
  simp only [hfix]
  obtain ⟨v, hv⟩ := rut_fst_ok env.runFixed ftc
    (env.fixedTempDir ++ "/" ++ ("fixed_" ++ om) ++ ".py") ("fixed_" ++ om) env.fixedTempDir
    { st with files := setFile (env.fixedTempDir ++ "/" ++ ("fixed_" ++ om) ++ ".py") fc st.files }
  rw [hv]
  obtain ⟨ftr, fts⟩ := v
  exact ⟨ftr, fts, rfl⟩

/-- When the logical-fix generation attempt fails, the post-syntax
pipeline still completes, with the pre-fix code as the fixed source and
the fallback explanation recorded. -/
theorem upload_after_syn_fallback (env : UploadEnv) (b : Bool) (cf om sm : String)
    (sf : Bool) (sfe code : String) (st : Sys) (tc ftc : String) (e : String)
    (horig : generate_unit_tests env.genTestsOrigResp env.parses = Except.ok tc)
    (hfg : generate_fixed_code env.fixGenResp env.parses = Except.error e)
    (hfixed : generate_unit_tests env.genTestsFixedResp env.parses = Except.ok ftc) :
    ∃ r st2, upload_after_syn env b cf om sm sf sfe code st = (Except.ok r, st2) ∧
      r.fixed_code = code ∧
      r.logical_fix_explanation = "Unable to generate fixes at this time." := by
  unfold upload_after_syn
  dsimp only
  simp only [horig, hfg]
  cases hr : (run_unit_tests env.runOrig tc cf om env.tempDir st).1 with
  | error e2 =>
    obtain ⟨v, hv⟩ := rut_fst_ok env.runOrig tc cf om env.tempDir st
    rw [hv] at hr
    cases hr
  | ok v =>
    obtain ⟨otr, ots⟩ := v
    simp only [hr]
    obtain ⟨ftr, fts, hq⟩ := fixed_branch_fst_ok env om code
      { (run_unit_tests env.runOrig tc cf om env.tempDir st).2 with
        dirs := env.fixedTempDir :: (run_unit_tests env.runOrig tc cf om env.tempDir st).2.dirs }
      ftc hfixed
    rw [hq]
    exact ⟨_, _, rfl, rfl, rfl⟩

/-- Claim C6. When the logical-fix code-generation call fails — network
error, non-2xx status (both folded into the response oracle), an empty
cleaned body or generated code that does not re-parse, i.e. exactly when
`generate_fixed_code` returns `.error` — the orchestrator falls back to
the pre-fix code unchanged as the fixed source, records the fallback
explanation text, and the Run still completes and returns a full
report. -/
theorem upload_fix_generation_fallback (env : UploadEnv) (st : Sys) (b1 b2 : Bool)
    (tc ftc k : String) (e : String)
    (hext : strEndsWith env.filename ".py" = true)
    (hkey : env.apiKey = some k)
    (hparse : env.parses env.fileContent = true)
    (horig : generate_unit_tests env.genTestsOrigResp env.parses = Except.ok tc)
    (hfg : generate_fixed_code env.fixGenResp env.parses = Except.error e)
    (hfixed : generate_unit_tests env.genTestsFixedResp env.parses = Except.ok ftc) :
    ∃ r st', upload_code_file env b1 b2 st = (Except.ok r, st') ∧
      r.fixed_code = env.fileContent ∧
      r.logical_fix_explanation = "Unable to generate fixes at this time." := by
  have hb := upload_after_syn_fallback env b2 (env.tempDir ++ "/" ++ env.filename)
    (splitext_root env.filename) "Code looks good!" false "" env.fileContent
    { { st with dirs := env.tempDir :: st.dirs } with
      files := setFile (env.tempDir ++ "/" ++ env.filename) env.fileContent
        ({ st with dirs := env.tempDir :: st.dirs }).files }
    tc ftc e horig hfg hfixed
  obtain ⟨r, st2, hb1, hb2, hb3⟩ := hb
  have hbody : upload_body env b2 { st with dirs := env.tempDir :: st.dirs } =
      (Except.ok r, st2) := by
    unfold upload_body
    dsimp only
    simp only [hparse, if_true]
    exact hb1
  unfold upload_code_file
  dsimp only
  simp only [hext, Bool.not_true, Bool.false_eq_true, if_false, hkey]
  refine ⟨r, rmtree b1 env.tempDir st2, ?_, hb2, hb3⟩
  rw [hbody]

/-- An upload environment in which everything succeeds except the
logical-fix code generation. -/
def uEnvFixGenFail : UploadEnv := { uEnvW with fixGenResp := Except.error "net down" }

/-- Witness for C6 at concrete inputs. -/
theorem upload_fix_generation_fallback_witness :
    ∃ r st', upload_code_file uEnvFixGenFail false false stUpload = (Except.ok r, st') ∧
      r.fixed_code = uEnvFixGenFail.fileContent ∧
      r.logical_fix_explanation = "Unable to generate fixes at this time." :=
  upload_fix_generation_fallback uEnvFixGenFail stUpload false false "import calculator"
    "import fixed_calculator" "key" "net down" (by decide) rfl rfl rfl rfl rfl

end App
